import Mathlib

/-!
Verification of the rule-based fraud risk scoring engine of
`src/features/fraud_checks.py` (functions `_risk_level`, `_get_numeric`,
`_get_bool`, `score_risk` with its inner `_score_row`).

The embedding models a pandas cell value as `PyVal`, a dataframe row as an
association list from column name to value, and a dataframe as a schema
plus a list of rows.  Python floats are modelled as rationals; the scoring
code performs only arithmetic, comparisons and string normalisation, all of
which are exact on the values the rules inspect.
-/

/-- A Python cell value as seen by the scoring engine: `none` models the
Python `None` object, `nan` a float NaN (pandas' missing-cell marker in a
present column), and `bool`/`num`/`str` genuine booleans, numbers and
strings.  Ints and floats are merged into `num` over ℚ, as the engine
treats them identically (`isinstance(value, (int, float))`, `float(value)`). -/
inductive PyVal where
  | none : PyVal
  | nan : PyVal
  | bool (b : Bool) : PyVal
  | num (q : ℚ) : PyVal
  | str (s : String) : PyVal
deriving DecidableEq

/-- A record (dataframe row): association list from column name to cell value. -/
abbrev Row := List (String × PyVal)

/-- Models pandas `row.get(column)` with no default: `none` when the column
is missing from the row. -/
def rowGet? (r : Row) (c : String) : Option PyVal :=
  (r.find? (fun p => p.1 == c)).map (fun p => p.2)

/-- Models Python `str.strip()`: drops leading and trailing whitespace. -/
def pyStrip (s : String) : String :=
  String.mk (((s.data.dropWhile Char.isWhitespace).reverse.dropWhile Char.isWhitespace).reverse)

/-- Models Python `str.lower()` by per-character case folding; every string
the engine compares against is ASCII. -/
def pyLower (s : String) : String :=
  String.mk (s.data.map Char.toLower)

/-- Digits-to-number accumulator for `pyParseFloat`. -/
def digitsVal (cs : List Char) : ℕ :=
  cs.foldl (fun a c => a * 10 + (c.toNat - 48)) 0

/-- Models the Python builtin `float()` applied to a string (used by
`_get_numeric` through `float(value)`): optional surrounding whitespace,
optional sign, decimal digits with an optional fractional part.  Exponent
forms and the special spellings `inf`/`nan` are not modelled; no claim
examined here depends on which particular strings parse. -/
def pyParseFloat (s : String) : Option ℚ :=
  let cs := (pyStrip s).toList
  let sb : ℚ × List Char :=
    match cs with
    | '-' :: r => (-1, r)
    | '+' :: r => (1, r)
    | r => (1, r)
  let ip := sb.2.takeWhile (fun c => c != '.')
  let rest := sb.2.dropWhile (fun c => c != '.')
  match rest with
  | [] =>
      if !ip.isEmpty && ip.all Char.isDigit then
        Option.some (sb.1 * (digitsVal ip : ℚ))
      else Option.none
  | _ :: fp =>
      if (!ip.isEmpty || !fp.isEmpty) && ip.all Char.isDigit && fp.all Char.isDigit then
        Option.some (sb.1 * ((digitsVal ip : ℚ) + (digitsVal fp : ℚ) / (10 : ℚ) ^ fp.length))
      else Option.none

/-- Value-level part of `_get_numeric`: `None` and NaN (`pd.isna`) give
absent; a bool converts via `float(True) = 1.0`; a string goes through
`float(value)` with `ValueError` caught (`pyParseFloat`). -/
def valNumeric : PyVal → Option ℚ
  | PyVal.none => Option.none
  | PyVal.nan => Option.none
  | PyVal.bool b => Option.some (if b then 1 else 0)
  | PyVal.num q => Option.some q
  | PyVal.str s => pyParseFloat s

/-- Models `_get_numeric(row, column)`. -/
def get_numeric (r : Row) (c : String) : Option ℚ :=
  match rowGet? r c with
  | Option.none => Option.none
  | Option.some v => valNumeric v

/-- Value-level part of `_get_bool`: a genuine bool passes through; an
int/float goes through `bool(value)` — in particular `bool(nan)` is `True`
since NaN is a non-zero float; a string is stripped, lowercased and matched
against the literal set; anything else (Python `None`) gives `False`. -/
def boolOfVal : PyVal → Bool
  | PyVal.bool b => b
  | PyVal.num q => q != 0
  | PyVal.nan => true
  | PyVal.str s => ["true", "1", "yes", "y"].contains (pyLower (pyStrip s))
  | PyVal.none => false

/-- Models `_get_bool(row, column)`: a missing column gives Python `None`,
which falls through every `isinstance` branch to `False`. -/
def get_bool (r : Row) (c : String) : Bool :=
  match rowGet? r c with
  | Option.none => false
  | Option.some v => boolOfVal v

/-- Models Python `str(value)` on a cell value, as applied to the `status`
and `procurement_method` cells.  The exact rendering of numbers is
irrelevant downstream (no digit string is among the matched method/status
names); what matters is that strings pass through unchanged. -/
def pyStr : PyVal → String
  | PyVal.none => "None"
  | PyVal.nan => "nan"
  | PyVal.bool b => if b then "True" else "False"
  | PyVal.num q => toString q
  | PyVal.str s => s

/-- Models `str(row.get(column, ""))`: empty string when the column is missing. -/
def getStr (r : Row) (c : String) : String :=
  match rowGet? r c with
  | Option.none => ""
  | Option.some v => pyStr v

/-- `RISK_LEVEL_THRESHOLDS` from the source, in its stated order. -/
def RISK_LEVEL_THRESHOLDS : List (ℚ × String) :=
  [(70, "Critical"), (45, "High"), (25, "Medium"), (0, "Low")]

/-- The loop of `_risk_level`: first threshold with `score >= threshold`
wins; `"Low"` if none matches. -/
def riskLevelAux : List (ℚ × String) → ℚ → String
  | [], _ => "Low"
  | (t, label) :: rest, s => if s ≥ t then label else riskLevelAux rest s

/-- Models `_risk_level(score)`. -/
def risk_level (score : ℚ) : String :=
  riskLevelAux RISK_LEVEL_THRESHOLDS score

/-- Rules 1–2 block of `_score_row` (`bidder_count`): `if ... elif ...`. -/
def bidderRules : Option ℚ → List (ℤ × String)
  | Option.some b =>
      if b ≤ 2 then [(20, "Low bidder count (≤2)")]
      else if b ≤ 4 then [(10, "Limited bidder competition (≤4)")]
      else []
  | Option.none => []

/-- Rules 3–4 block (`cost_variance_pct`): two independent `if`s, so the
block is the concatenation of their contributions. -/
def costVarianceRules : Option ℚ → List (ℤ × String)
  | Option.some cv =>
      (if cv ≥ 15 then [((15 : ℤ), "Cost variance ≥15% over estimate")] else [])
        ++ (if cv ≤ -15 then [((10 : ℤ), "Cost variance ≤-15% (aggressive underbid)")] else [])
  | Option.none => []

/-- Rules 5–6 block (`payment_discrepancy`): `abs_gap` with `if ... elif ...`. -/
def paymentGapRules : Option ℚ → List (ℤ × String)
  | Option.some pg =>
      if |pg| ≥ 1000000 then [(20, "Payment discrepancy ≥ NPR 1M")]
      else if |pg| ≥ 500000 then [(12, "Payment discrepancy ≥ NPR 500k")]
      else []
  | Option.none => []

/-- Rules 7–8 block (`contract_amount` vs `estimatedCost`).  The Python
guard is `if contract_amount and estimate:` — truthiness of optional
floats — so the block runs only when both values are present AND non-zero. -/
def estimateRules (contract_amount estimate : Option ℚ) : List (ℤ × String) :=
  match contract_amount, estimate with
  | Option.some a, Option.some e =>
      if a ≠ 0 ∧ e ≠ 0 then
        let diff_pct := (a - e) / e * 100
        if diff_pct ≥ 25 then [(10, "Contract value ≥25% above estimate")]
        else if diff_pct ≤ -20 then [(8, "Contract awarded ≥20% below estimate")]
        else []
      else []
  | _, _ => []

/-- Rules 9–10 block (`actual_payment_made` vs `contract_amount`): the guard
is `actual_payment is not None and contract_amount`, so the payment may be
zero but the amount must be present and non-zero. -/
def overpayRules (actual_payment contract_amount : Option ℚ) : List (ℤ × String) :=
  match actual_payment, contract_amount with
  | Option.some ap, Option.some a =>
      if a ≠ 0 then
        let overpay_pct := (ap - a) / a * 100
        if overpay_pct ≥ 10 then [(15, "Payments exceed contract amount by ≥10%")]
        else if overpay_pct ≤ -20 then [(8, "Payments lag contract amount by ≥20%")]
        else []
      else []
  | _, _ => []

/-- Rules 11–13 block (`percentageOfCompletion` with normalised `status`):
three independent `if`s. -/
def completionRules (completion_pct : Option ℚ) (status : String) : List (ℤ × String) :=
  match completion_pct with
  | Option.some p =>
      (if status = "completed" ∧ p < 80 then [((15 : ℤ), "Marked completed with <80% progress")] else [])
        ++ (if (status = "in-progress" ∨ status = "delayed") ∧ p ≥ 95 then [((8 : ℤ), "Near completion but not closed")] else [])
        ++ (if status = "delayed" ∧ p < 50 then [((10 : ℤ), "Delayed with <50% progress")] else [])
  | Option.none => []

/-- Rule 14 (`is_red_flag_entity`). -/
def redFlagRule (b : Bool) : List (ℤ × String) :=
  if b then [(12, "Awarded to a red-flagged entity")] else []

/-- Rule 15 (`is_blacklisted_contractor`). -/
def blacklistRule (b : Bool) : List (ℤ × String) :=
  if b then [(30, "Blacklisted contractor involved")] else []

/-- Rule 16 (normalised `procurement_method` with `contract_amount`):
`contract_amount is not None and contract_amount >= 10_000_000`. -/
def methodRule (method : String) (contract_amount : Option ℚ) : List (ℤ × String) :=
  match contract_amount with
  | Option.some a =>
      if (method = "direct" ∨ method = "shopping" ∨ method = "rfq") ∧ a ≥ 10000000 then
        [(12, "High-value contract via limited competition method")]
      else []
  | Option.none => []

/-- Rule 17 (`contract_duration_days` with normalised `procurement_method`). -/
def durationRule (duration_days : Option ℚ) (method : String) : List (ℤ × String) :=
  match duration_days with
  | Option.some d =>
      if (method = "shopping" ∨ method = "rfq") ∧ d ≥ 180 then
        [(6, "Short-form method used for long-duration contract")]
      else []
  | Option.none => []

/-- The ordered `(points, reason)` contributions of `_score_row`: each
`add(points, reason)` call appends one pair, so the row's evidence is the
concatenation of the blocks in source order. -/
def contribs (r : Row) : List (ℤ × String) :=
  bidderRules (get_numeric r "bidder_count")
    ++ costVarianceRules (get_numeric r "cost_variance_pct")
    ++ paymentGapRules (get_numeric r "payment_discrepancy")
    ++ estimateRules (get_numeric r "contract_amount") (get_numeric r "estimatedCost")
    ++ overpayRules (get_numeric r "actual_payment_made") (get_numeric r "contract_amount")
    ++ completionRules (get_numeric r "percentageOfCompletion") (pyLower (pyStrip (getStr r "status")))
    ++ redFlagRule (get_bool r "is_red_flag_entity")
    ++ blacklistRule (get_bool r "is_blacklisted_contractor")
    ++ methodRule (pyLower (pyStrip (getStr r "procurement_method"))) (get_numeric r "contract_amount")
    ++ durationRule (get_numeric r "contract_duration_days") (pyLower (pyStrip (getStr r "procurement_method")))

/-- The four derived fields returned by `_score_row` as a `pd.Series`. -/
structure RiskAssessment where
  risk_score : ℚ
  risk_level : String
  risk_reasons : String
  risk_triggers : ℕ
deriving DecidableEq

/-- Models `_score_row(row)`: `score` is the running integer sum of the
added points (returned as `float(score)`), `reasons` the appended reason
strings, joined with `"; "` or replaced by the sentinel when empty. -/
def score_row (r : Row) : RiskAssessment :=
  let cs := contribs r
  let score : ℤ := (cs.map (fun x => x.1)).sum
  let reasons : List String := cs.map (fun x => x.2)
  { risk_score := (score : ℚ),
    risk_level := risk_level ((score : ℤ) : ℚ),
    risk_reasons := if reasons.isEmpty then "No apparent red flags" else String.intercalate "; " reasons,
    risk_triggers := reasons.length }

/-- Pandas column dtype, as far as the scorer declares one. -/
inductive Dtype where
  | float : Dtype
  | str : Dtype
  | int : Dtype
deriving DecidableEq

/-- A dataframe: named, typed columns plus a list of rows. -/
structure DataFrame where
  schema : List (String × Dtype)
  rows : List Row
deriving DecidableEq

/-- The four derived columns with the dtypes declared by `score_risk`'s
empty branch (`float`, `str`, `str`, `int`). -/
def derivedSchema : List (String × Dtype) :=
  [("risk_score", Dtype.float), ("risk_level", Dtype.str),
   ("risk_reasons", Dtype.str), ("risk_triggers", Dtype.int)]

/-- A `RiskAssessment` rendered as the four derived cells of an output row. -/
def assessCells (a : RiskAssessment) : Row :=
  [("risk_score", PyVal.num a.risk_score), ("risk_level", PyVal.str a.risk_level),
   ("risk_reasons", PyVal.str a.risk_reasons), ("risk_triggers", PyVal.num (a.risk_triggers : ℚ))]

/-- Models `score_risk(df)`: on an empty frame, concatenating the typed
empty `empty_scores` frame appends the four columns and keeps zero rows;
otherwise `df.apply(_score_row, axis=1)` scores each row and the
`axis=1` concat appends each row's derived cells, order preserved
(`reset_index(drop=True)` keeps positional order on both sides). -/
def score_risk (df : DataFrame) : DataFrame :=
  if df.rows.isEmpty then
    { schema := df.schema ++ derivedSchema, rows := df.rows }
  else
    { schema := df.schema ++ derivedSchema,
      rows := df.rows.map (fun r => r ++ assessCells (score_row r)) }

/-- Boolean extraction as the spec states it (§3, §4.1): "default false if
absent or unparseable" — in particular a NaN cell, pandas' marker for a
missing value in a present column, is absent and therefore false.  This is
the one point where the spec's extractor and the code's `_get_bool`
disagree; every other case is identical to `boolOfVal`.  Declared for
refinement comparison against the source. -/
def specBoolOfVal : PyVal → Bool
  | PyVal.bool b => b
  | PyVal.num q => q != 0
  | PyVal.nan => false
  | PyVal.str s => ["true", "1", "yes", "y"].contains (pyLower (pyStrip s))
  | PyVal.none => false

/-- Row-level spec boolean extraction (absent column gives false). -/
def spec_get_bool (r : Row) (c : String) : Bool :=
  match rowGet? r c with
  | Option.none => false
  | Option.some v => specBoolOfVal v

/-- Independent re-evaluation of the spec's rule table (§4.2), exactly as
worded: the sum of the points of every rule whose stated condition holds on
the record's extracted field values.  Numeric and string extraction follow
§4.1 (which matches `_get_numeric`/`str(...)`); boolean extraction follows
§3/§4.1 (`specBoolOfVal`).  Rules 7–8 require, as the table states, only
that both fields be present and `estimatedCost ≠ 0`.  Declared for
refinement comparison against the source. -/
def spec_rule_points (r : Row) : ℤ :=
  (match get_numeric r "bidder_count" with
   | Option.some b => if b ≤ 2 then (20 : ℤ) else 0
   | Option.none => 0)
  + (match get_numeric r "bidder_count" with
     | Option.some b => if 2 < b ∧ b ≤ 4 then (10 : ℤ) else 0
     | Option.none => 0)
  + (match get_numeric r "cost_variance_pct" with
     | Option.some x => if x ≥ 15 then (15 : ℤ) else 0
     | Option.none => 0)
  + (match get_numeric r "cost_variance_pct" with
     | Option.some x => if x ≤ -15 then (10 : ℤ) else 0
     | Option.none => 0)
  + (match get_numeric r "payment_discrepancy" with
     | Option.some x => if |x| ≥ 1000000 then (20 : ℤ) else 0
     | Option.none => 0)
  + (match get_numeric r "payment_discrepancy" with
     | Option.some x => if 500000 ≤ |x| ∧ |x| < 1000000 then (12 : ℤ) else 0
     | Option.none => 0)
  + (match get_numeric r "contract_amount", get_numeric r "estimatedCost" with
     | Option.some a, Option.some e => if e ≠ 0 ∧ (a - e) / e * 100 ≥ 25 then (10 : ℤ) else 0
     | _, _ => 0)
  + (match get_numeric r "contract_amount", get_numeric r "estimatedCost" with
     | Option.some a, Option.some e => if e ≠ 0 ∧ (a - e) / e * 100 ≤ -20 then (8 : ℤ) else 0
     | _, _ => 0)
  + (match get_numeric r "actual_payment_made", get_numeric r "contract_amount" with
     | Option.some p, Option.some a => if a ≠ 0 ∧ (p - a) / a * 100 ≥ 10 then (15 : ℤ) else 0
     | _, _ => 0)
  + (match get_numeric r "actual_payment_made", get_numeric r "contract_amount" with
     | Option.some p, Option.some a => if a ≠ 0 ∧ (p - a) / a * 100 ≤ -20 then (8 : ℤ) else 0
     | _, _ => 0)
  + (match get_numeric r "percentageOfCompletion" with
     | Option.some p => if pyLower (pyStrip (getStr r "status")) = "completed" ∧ p < 80 then (15 : ℤ) else 0
     | Option.none => 0)
  + (match get_numeric r "percentageOfCompletion" with
     | Option.some p =>
        if (pyLower (pyStrip (getStr r "status")) = "in-progress" ∨ pyLower (pyStrip (getStr r "status")) = "delayed") ∧ p ≥ 95 then (8 : ℤ) else 0
     | Option.none => 0)
  + (match get_numeric r "percentageOfCompletion" with
     | Option.some p => if pyLower (pyStrip (getStr r "status")) = "delayed" ∧ p < 50 then (10 : ℤ) else 0
     | Option.none => 0)
  + (if spec_get_bool r "is_red_flag_entity" then (12 : ℤ) else 0)
  + (if spec_get_bool r "is_blacklisted_contractor" then (30 : ℤ) else 0)
  + (match get_numeric r "contract_amount" with
     | Option.some a =>
        if (pyLower (pyStrip (getStr r "procurement_method")) = "direct" ∨
            pyLower (pyStrip (getStr r "procurement_method")) = "shopping" ∨
            pyLower (pyStrip (getStr r "procurement_method")) = "rfq") ∧ a ≥ 10000000 then (12 : ℤ) else 0
     | Option.none => 0)
  + (match get_numeric r "contract_duration_days" with
     | Option.some d =>
        if (pyLower (pyStrip (getStr r "procurement_method")) = "shopping" ∨
            pyLower (pyStrip (getStr r "procurement_method")) = "rfq") ∧ d ≥ 180 then (6 : ℤ) else 0
     | Option.none => 0)

/-- The spec's rule table amended only in rules 7–8: as the source's guard
`if contract_amount and estimate:` uses Python truthiness, those two rules
additionally require `contractAmount ≠ 0`.  Every other rule is verbatim
`spec_rule_points`.  Declared for refinement comparison against the source. -/
def spec_rule_points_amended (r : Row) : ℤ :=
  (match get_numeric r "bidder_count" with
   | Option.some b => if b ≤ 2 then (20 : ℤ) else 0
   | Option.none => 0)
  + (match get_numeric r "bidder_count" with
     | Option.some b => if 2 < b ∧ b ≤ 4 then (10 : ℤ) else 0
     | Option.none => 0)
  + (match get_numeric r "cost_variance_pct" with
     | Option.some x => if x ≥ 15 then (15 : ℤ) else 0
     | Option.none => 0)
  + (match get_numeric r "cost_variance_pct" with
     | Option.some x => if x ≤ -15 then (10 : ℤ) else 0
     | Option.none => 0)
  + (match get_numeric r "payment_discrepancy" with
     | Option.some x => if |x| ≥ 1000000 then (20 : ℤ) else 0
     | Option.none => 0)
  + (match get_numeric r "payment_discrepancy" with
     | Option.some x => if 500000 ≤ |x| ∧ |x| < 1000000 then (12 : ℤ) else 0
     | Option.none => 0)
  + (match get_numeric r "contract_amount", get_numeric r "estimatedCost" with
     | Option.some a, Option.some e => if a ≠ 0 ∧ e ≠ 0 ∧ (a - e) / e * 100 ≥ 25 then (10 : ℤ) else 0
     | _, _ => 0)
  + (match get_numeric r "contract_amount", get_numeric r "estimatedCost" with
     | Option.some a, Option.some e => if a ≠ 0 ∧ e ≠ 0 ∧ (a - e) / e * 100 ≤ -20 then (8 : ℤ) else 0
     | _, _ => 0)
  + (match get_numeric r "actual_payment_made", get_numeric r "contract_amount" with
     | Option.some p, Option.some a => if a ≠ 0 ∧ (p - a) / a * 100 ≥ 10 then (15 : ℤ) else 0
     | _, _ => 0)
  + (match get_numeric r "actual_payment_made", get_numeric r "contract_amount" with
     | Option.some p, Option.some a => if a ≠ 0 ∧ (p - a) / a * 100 ≤ -20 then (8 : ℤ) else 0
     | _, _ => 0)
  + (match get_numeric r "percentageOfCompletion" with
     | Option.some p => if pyLower (pyStrip (getStr r "status")) = "completed" ∧ p < 80 then (15 : ℤ) else 0
     | Option.none => 0)
  + (match get_numeric r "percentageOfCompletion" with
     | Option.some p =>
        if (pyLower (pyStrip (getStr r "status")) = "in-progress" ∨ pyLower (pyStrip (getStr r "status")) = "delayed") ∧ p ≥ 95 then (8 : ℤ) else 0
     | Option.none => 0)
  + (match get_numeric r "percentageOfCompletion" with
     | Option.some p => if pyLower (pyStrip (getStr r "status")) = "delayed" ∧ p < 50 then (10 : ℤ) else 0
     | Option.none => 0)
  + (if spec_get_bool r "is_red_flag_entity" then (12 : ℤ) else 0)
  + (if spec_get_bool r "is_blacklisted_contractor" then (30 : ℤ) else 0)
  + (match get_numeric r "contract_amount" with
     | Option.some a =>
        if (pyLower (pyStrip (getStr r "procurement_method")) = "direct" ∨
            pyLower (pyStrip (getStr r "procurement_method")) = "shopping" ∨
            pyLower (pyStrip (getStr r "procurement_method")) = "rfq") ∧ a ≥ 10000000 then (12 : ℤ) else 0
     | Option.none => 0)
  + (match get_numeric r "contract_duration_days" with
     | Option.some d =>
        if (pyLower (pyStrip (getStr r "procurement_method")) = "shopping" ∨
            pyLower (pyStrip (getStr r "procurement_method")) = "rfq") ∧ d ≥ 180 then (6 : ℤ) else 0
     | Option.none => 0)

/-- Each rule block yields either no contribution or a single positive
contribution bounded by the block's maximum points. -/
def BlockShape (l : List (ℤ × String)) (M : ℤ) : Prop :=
  l = [] ∨ ∃ p s, l = [(p, s)] ∧ 0 < p ∧ p ≤ M

/-- `score_row` written out field by field (definitional). -/
lemma score_row_def (r : Row) :
    score_row r =
      { risk_score := ((((contribs r).map (fun x => x.1)).sum : ℤ) : ℚ),
        risk_level := risk_level ((((contribs r).map (fun x => x.1)).sum : ℤ) : ℚ),
        risk_reasons :=
          if ((contribs r).map (fun x => x.2)).isEmpty then "No apparent red flags"
          else String.intercalate "; " ((contribs r).map (fun x => x.2)),
        risk_triggers := ((contribs r).map (fun x => x.2)).length } := rfl

lemma shape_len {l : List (ℤ × String)} {M : ℤ} (h : BlockShape l M) : l.length ≤ 1 := by
  rcases h with h | ⟨p, s, h, _, _⟩ <;> subst h <;> simp

lemma shape_pos {l : List (ℤ × String)} {M : ℤ} (h : BlockShape l M) :
    ∀ x ∈ l, 0 < x.1 := by
  rcases h with h | ⟨p, s, h, hp, _⟩ <;> subst h
  · intro x hx; simp at hx
  · intro x hx
    simp at hx
    subst hx
    exact hp

lemma shape_sum {l : List (ℤ × String)} {M : ℤ} (hM : 0 ≤ M) (h : BlockShape l M) :
    0 ≤ (l.map (fun x => x.1)).sum ∧ (l.map (fun x => x.1)).sum ≤ M := by
  rcases h with h | ⟨p, s, h, hp, hpM⟩ <;> subst h
  · simpa using hM
  · simp only [List.map_cons, List.map_nil, List.sum_cons, List.sum_nil, add_zero]
    exact ⟨le_of_lt hp, hpM⟩

lemma shape_bidder (b : Option ℚ) : BlockShape (bidderRules b) 20 := by
  rcases b with _ | v
  · exact Or.inl rfl
  · simp only [bidderRules]
    split_ifs with h1 h2
    · exact Or.inr ⟨20, _, rfl, by norm_num, by norm_num⟩
    · exact Or.inr ⟨10, _, rfl, by norm_num, by norm_num⟩
    · exact Or.inl rfl

lemma shape_costVariance (c : Option ℚ) : BlockShape (costVarianceRules c) 15 := by
  rcases c with _ | v
  · exact Or.inl rfl
  · simp only [costVarianceRules]
    split_ifs with h1 h2
    · exfalso; linarith
    · exact Or.inr ⟨15, _, rfl, by norm_num, by norm_num⟩
    · exact Or.inr ⟨10, _, rfl, by norm_num, by norm_num⟩
    · exact Or.inl rfl

lemma shape_paymentGap (c : Option ℚ) : BlockShape (paymentGapRules c) 20 := by
  rcases c with _ | v
  · exact Or.inl rfl
  · simp only [paymentGapRules]
    split_ifs with h1 h2
    · exact Or.inr ⟨20, _, rfl, by norm_num, by norm_num⟩
    · exact Or.inr ⟨12, _, rfl, by norm_num, by norm_num⟩
    · exact Or.inl rfl

lemma shape_estimate (a e : Option ℚ) : BlockShape (estimateRules a e) 10 := by
  rcases a with _ | x
  · exact Or.inl rfl
  rcases e with _ | y
  · exact Or.inl rfl
  simp only [estimateRules]
  split_ifs with h1 h2 h3
  · exact Or.inr ⟨10, _, rfl, by norm_num, by norm_num⟩
  · exact Or.inr ⟨8, _, rfl, by norm_num, by norm_num⟩
  · exact Or.inl rfl
  · exact Or.inl rfl

lemma shape_overpay (ap a : Option ℚ) : BlockShape (overpayRules ap a) 15 := by
  rcases ap with _ | x
  · exact Or.inl rfl
  rcases a with _ | y
  · exact Or.inl rfl
  simp only [overpayRules]
  split_ifs with h1 h2 h3
  · exact Or.inr ⟨15, _, rfl, by norm_num, by norm_num⟩
  · exact Or.inr ⟨8, _, rfl, by norm_num, by norm_num⟩
  · exact Or.inl rfl
  · exact Or.inl rfl

lemma shape_completion (c : Option ℚ) (st : String) : BlockShape (completionRules c st) 15 := by
  rcases c with _ | v
  · exact Or.inl rfl
  simp only [completionRules]
  split_ifs with h1 h2 h3 h4 h5 h6 h7
  · exfalso; linarith [h1.2, h2.2]
  · exfalso; linarith [h1.2, h2.2]
  · exfalso
    rw [h1.1] at h4
    exact absurd h4.1 (by decide)
  · exact Or.inr ⟨15, _, rfl, by norm_num, by norm_num⟩
  · exfalso; linarith [h5.2, h6.2]
  · exact Or.inr ⟨8, _, rfl, by norm_num, by norm_num⟩
  · exact Or.inr ⟨10, _, rfl, by norm_num, by norm_num⟩
  · exact Or.inl rfl

lemma shape_redFlag (b : Bool) : BlockShape (redFlagRule b) 12 := by
  cases b
  · exact Or.inl rfl
  · exact Or.inr ⟨12, _, rfl, by norm_num, by norm_num⟩

lemma shape_blacklist (b : Bool) : BlockShape (blacklistRule b) 30 := by
  cases b
  · exact Or.inl rfl
  · exact Or.inr ⟨30, _, rfl, by norm_num, by norm_num⟩

lemma shape_method (m : String) (a : Option ℚ) : BlockShape (methodRule m a) 12 := by
  rcases a with _ | v
  · exact Or.inl rfl
  simp only [methodRule]
  split_ifs with h1
  · exact Or.inr ⟨12, _, rfl, by norm_num, by norm_num⟩
  · exact Or.inl rfl

lemma shape_duration (d : Option ℚ) (m : String) : BlockShape (durationRule d m) 6 := by
  rcases d with _ | v
  · exact Or.inl rfl
  simp only [durationRule]
  split_ifs with h1
  · exact Or.inr ⟨6, _, rfl, by norm_num, by norm_num⟩
  · exact Or.inl rfl

lemma contrib_pos (r : Row) : ∀ x ∈ contribs r, 0 < x.1 := by
  intro x hx
  rw [contribs] at hx
  simp only [List.mem_append] at hx
  rcases hx with ((((((((hx | hx) | hx) | hx) | hx) | hx) | hx) | hx) | hx) | hx
  · exact shape_pos (shape_bidder _) x hx
  · exact shape_pos (shape_costVariance _) x hx
  · exact shape_pos (shape_paymentGap _) x hx
  · exact shape_pos (shape_estimate _ _) x hx
  · exact shape_pos (shape_overpay _ _) x hx
  · exact shape_pos (shape_completion _ _) x hx
  · exact shape_pos (shape_redFlag _) x hx
  · exact shape_pos (shape_blacklist _) x hx
  · exact shape_pos (shape_method _ _) x hx
  · exact shape_pos (shape_duration _ _) x hx

lemma sum_zero_iff (l : List (ℤ × String)) (h : ∀ x ∈ l, 0 < x.1) :
    0 ≤ (l.map (fun x => x.1)).sum ∧ ((l.map (fun x => x.1)).sum = 0 ↔ l = []) := by
  induction l with
  | nil => simp
  | cons a t ih =>
    have ha := h a (by simp)
    have ht := ih (fun x hx => h x (by simp [hx]))
    simp only [List.map_cons, List.sum_cons]
    constructor
    · linarith [ht.1]
    · constructor
      · intro h0
        exfalso
        linarith [ht.1]
      · intro h0
        cases h0

lemma get_bool_eq_spec (r : Row) (c : String)
    (h : rowGet? r c ≠ Option.some PyVal.nan) : get_bool r c = spec_get_bool r c := by
  unfold get_bool spec_get_bool
  rcases hv : rowGet? r c with _ | v
  · rfl
  · rcases v with _ | _ | b | q | s
    · rfl
    · exact absurd hv h
    · rfl
    · rfl
    · rfl

lemma sumBidder (b : Option ℚ) :
    ((bidderRules b).map (fun x => x.1)).sum =
      (match b with
       | Option.some x => if x ≤ 2 then (20 : ℤ) else 0
       | Option.none => 0)
      + (match b with
         | Option.some x => if 2 < x ∧ x ≤ 4 then (10 : ℤ) else 0
         | Option.none => 0) := by
  rcases b with _ | v
  · simp [bidderRules]
  · simp only [bidderRules]
    split_ifs with h1 h2 h3 h4 h5 <;> simp_all <;> linarith

lemma sumCostVar (c : Option ℚ) :
    ((costVarianceRules c).map (fun x => x.1)).sum =
      (match c with
       | Option.some x => if x ≥ 15 then (15 : ℤ) else 0
       | Option.none => 0)
      + (match c with
         | Option.some x => if x ≤ -15 then (10 : ℤ) else 0
         | Option.none => 0) := by
  rcases c with _ | v
  · simp [costVarianceRules]
  · simp only [costVarianceRules]
    split_ifs <;> simp_all

lemma sumPaymentGap (c : Option ℚ) :
    ((paymentGapRules c).map (fun x => x.1)).sum =
      (match c with
       | Option.some x => if |x| ≥ 1000000 then (20 : ℤ) else 0
       | Option.none => 0)
      + (match c with
         | Option.some x => if 500000 ≤ |x| ∧ |x| < 1000000 then (12 : ℤ) else 0
         | Option.none => 0) := by
  rcases c with _ | v
  · simp [paymentGapRules]
  · simp only [paymentGapRules]
    split_ifs with h1 h2 h3 h4 h5 <;> simp_all <;> linarith

lemma sumEstimate (ca e : Option ℚ) :
    ((estimateRules ca e).map (fun x => x.1)).sum =
      (match ca, e with
       | Option.some a, Option.some e2 =>
          if a ≠ 0 ∧ e2 ≠ 0 ∧ (a - e2) / e2 * 100 ≥ 25 then (10 : ℤ) else 0
       | _, _ => 0)
      + (match ca, e with
         | Option.some a, Option.some e2 =>
            if a ≠ 0 ∧ e2 ≠ 0 ∧ (a - e2) / e2 * 100 ≤ -20 then (8 : ℤ) else 0
         | _, _ => 0) := by
  rcases ca with _ | x
  · simp [estimateRules]
  rcases e with _ | y
  · simp [estimateRules]
  simp only [estimateRules]
  split_ifs with h1 h2 h3 h4 h5 h6 h7 h8 h9 <;> simp_all <;> linarith

lemma sumOverpay (ap ca : Option ℚ) :
    ((overpayRules ap ca).map (fun x => x.1)).sum =
      (match ap, ca with
       | Option.some p, Option.some a =>
          if a ≠ 0 ∧ (p - a) / a * 100 ≥ 10 then (15 : ℤ) else 0
       | _, _ => 0)
      + (match ap, ca with
         | Option.some p, Option.some a =>
            if a ≠ 0 ∧ (p - a) / a * 100 ≤ -20 then (8 : ℤ) else 0
         | _, _ => 0) := by
  rcases ap with _ | x
  · simp [overpayRules]
  rcases ca with _ | y
  · simp [overpayRules]
  simp only [overpayRules]
  split_ifs with h1 h2 h3 h4 h5 h6 h7 h8 h9 <;> simp_all <;> linarith

lemma sumCompletion (c : Option ℚ) (st : String) :
    ((completionRules c st).map (fun x => x.1)).sum =
      (match c with
       | Option.some p => if st = "completed" ∧ p < 80 then (15 : ℤ) else 0
       | Option.none => 0)
      + (match c with
         | Option.some p =>
            if (st = "in-progress" ∨ st = "delayed") ∧ p ≥ 95 then (8 : ℤ) else 0
         | Option.none => 0)
      + (match c with
         | Option.some p => if st = "delayed" ∧ p < 50 then (10 : ℤ) else 0
         | Option.none => 0) := by
  rcases c with _ | v
  · simp [completionRules]
  simp only [completionRules]
  split_ifs <;> simp_all

lemma sumRedFlag (b : Bool) :
    ((redFlagRule b).map (fun x => x.1)).sum = if b then (12 : ℤ) else 0 := by
  cases b <;> simp [redFlagRule]

lemma sumBlacklist (b : Bool) :
    ((blacklistRule b).map (fun x => x.1)).sum = if b then (30 : ℤ) else 0 := by
  cases b <;> simp [blacklistRule]

lemma sumMethod (m : String) (ca : Option ℚ) :
    ((methodRule m ca).map (fun x => x.1)).sum =
      (match ca with
       | Option.some a =>
          if (m = "direct" ∨ m = "shopping" ∨ m = "rfq") ∧ a ≥ 10000000 then (12 : ℤ) else 0
       | Option.none => 0) := by
  rcases ca with _ | v
  · simp [methodRule]
  simp only [methodRule]
  split_ifs <;> simp_all

lemma sumDuration (d : Option ℚ) (m : String) :
    ((durationRule d m).map (fun x => x.1)).sum =
      (match d with
       | Option.some x => if (m = "shopping" ∨ m = "rfq") ∧ x ≥ 180 then (6 : ℤ) else 0
       | Option.none => 0) := by
  rcases d with _ | v
  · simp [durationRule]
  simp only [durationRule]
  split_ifs <;> simp_all

lemma risk_level_eq (s : ℚ) :
    risk_level s =
      (if s ≥ 70 then "Critical"
       else if s ≥ 45 then "High"
       else if s ≥ 25 then "Medium" else "Low") := by
  simp only [risk_level, RISK_LEVEL_THRESHOLDS, riskLevelAux]
  split_ifs <;> rfl

lemma score_row_score (r : Row) :
    (score_row r).risk_score = ((((contribs r).map (fun x => x.1)).sum : ℤ) : ℚ) := rfl

lemma score_row_level (r : Row) :
    (score_row r).risk_level = risk_level ((((contribs r).map (fun x => x.1)).sum : ℤ) : ℚ) := rfl

lemma score_row_reasons (r : Row) :
    (score_row r).risk_reasons =
      (if ((contribs r).map (fun x => x.2)).isEmpty then "No apparent red flags"
       else String.intercalate "; " ((contribs r).map (fun x => x.2))) := rfl

lemma score_row_triggers (r : Row) :
    (score_row r).risk_triggers = ((contribs r).map (fun x => x.2)).length := rfl

lemma estimateRules_zero_estimate (a : Option ℚ) : estimateRules a (Option.some 0) = [] := by
  rcases a with _ | x
  · rfl
  · simp [estimateRules]

lemma overpayRules_zero_amount (ap : Option ℚ) : overpayRules ap (Option.some 0) = [] := by
  rcases ap with _ | x
  · rfl
  · simp [overpayRules]

lemma rowGet?_append_left (r r2 : Row) (c : String) (h : (rowGet? r c).isSome) :
    rowGet? (r ++ r2) c = rowGet? r c := by
  have h2 : (List.find? (fun p => p.1 == c) r).isSome := by
    simpa [rowGet?] using h
  unfold rowGet?
  rw [List.find?_append, Option.or_of_isSome h2]

/-- C2 (confirmed): for every record, `riskLevel` is classified from
`riskScore` by the ordered descending thresholds, first match winning:
score ≥ 70 gives Critical, else ≥ 45 High, else ≥ 25 Medium, else Low. -/
theorem c2_risk_level_thresholds (r : Row) :
    (score_row r).risk_level =
      (if (score_row r).risk_score ≥ 70 then "Critical"
       else if (score_row r).risk_score ≥ 45 then "High"
       else if (score_row r).risk_score ≥ 25 then "Medium" else "Low") := by
  rw [score_row_level, score_row_score]
  exact risk_level_eq _

/-- C6 (confirmed): for every record, `riskScore` is non-negative,
`riskTriggerCount` equals the number of fired rules, and the trigger count
is zero exactly when the reasons are the sentinel and the score is zero. -/
theorem c6_triggers_score_reasons (r : Row) :
    0 ≤ (score_row r).risk_score ∧
    (score_row r).risk_triggers = (contribs r).length ∧
    ((score_row r).risk_triggers = 0 ↔
      ((score_row r).risk_reasons = "No apparent red flags" ∧
        (score_row r).risk_score = 0)) := by
  have hs := sum_zero_iff (contribs r) (contrib_pos r)
  refine ⟨?_, ?_, ?_⟩
  · rw [score_row_score]
    exact_mod_cast hs.1
  · rw [score_row_triggers]
    simp
  · rw [score_row_triggers, score_row_reasons, score_row_score]
    constructor
    · intro h0
      have hnil : contribs r = [] := by
        have hlen : (contribs r).length = 0 := by simpa using h0
        exact List.eq_nil_of_length_eq_zero hlen
      rw [hnil]
      exact ⟨by simp, by simp⟩
    · rintro ⟨hreason, hscore⟩
      have hz : ((contribs r).map (fun x => x.1)).sum = 0 := by exact_mod_cast hscore
      rw [(hs.2).mp hz]
      simp

/-- C10 (confirmed): at most one rule fires from each of the groups
1–2, 3–4, 5–6, 7–8, 9–10 and 11–13, and `riskScore` is bounded by 155, the
sum of each group's maximum with rules 14–17. -/
theorem c10_group_exclusive_bound (r : Row) :
    (bidderRules (get_numeric r "bidder_count")).length ≤ 1 ∧
    (costVarianceRules (get_numeric r "cost_variance_pct")).length ≤ 1 ∧
    (paymentGapRules (get_numeric r "payment_discrepancy")).length ≤ 1 ∧
    (estimateRules (get_numeric r "contract_amount") (get_numeric r "estimatedCost")).length ≤ 1 ∧
    (overpayRules (get_numeric r "actual_payment_made") (get_numeric r "contract_amount")).length ≤ 1 ∧
    (completionRules (get_numeric r "percentageOfCompletion")
      (pyLower (pyStrip (getStr r "status")))).length ≤ 1 ∧
    (score_row r).risk_score ≤ 155 := by
  have sb := shape_sum (by norm_num) (shape_bidder (get_numeric r "bidder_count"))
  have sc := shape_sum (by norm_num) (shape_costVariance (get_numeric r "cost_variance_pct"))
  have sp := shape_sum (by norm_num) (shape_paymentGap (get_numeric r "payment_discrepancy"))
  have se := shape_sum (by norm_num)
    (shape_estimate (get_numeric r "contract_amount") (get_numeric r "estimatedCost"))
  have so := shape_sum (by norm_num)
    (shape_overpay (get_numeric r "actual_payment_made") (get_numeric r "contract_amount"))
  have scp := shape_sum (by norm_num)
    (shape_completion (get_numeric r "percentageOfCompletion")
      (pyLower (pyStrip (getStr r "status"))))
  have srf := shape_sum (by norm_num) (shape_redFlag (get_bool r "is_red_flag_entity"))
  have sbl := shape_sum (by norm_num) (shape_blacklist (get_bool r "is_blacklisted_contractor"))
  have sm := shape_sum (by norm_num)
    (shape_method (pyLower (pyStrip (getStr r "procurement_method"))) (get_numeric r "contract_amount"))
  have sd := shape_sum (by norm_num)
    (shape_duration (get_numeric r "contract_duration_days")
      (pyLower (pyStrip (getStr r "procurement_method"))))
  refine ⟨shape_len (shape_bidder _), shape_len (shape_costVariance _),
    shape_len (shape_paymentGap _), shape_len (shape_estimate _ _),
    shape_len (shape_overpay _ _), shape_len (shape_completion _ _), ?_⟩
  rw [score_row_score]
  have key : ((contribs r).map (fun x => x.1)).sum ≤ 155 := by
    simp only [contribs, List.map_append, List.sum_append]
    linarith [sb.1, sb.2, sc.1, sc.2, sp.1, sp.2, se.1, se.2, so.1, so.2,
      scp.1, scp.2, srf.1, srf.2, sbl.1, sbl.2, sm.1, sm.2, sd.1, sd.2]
  exact_mod_cast key

/-- C1 (amended): for every record whose `is_red_flag_entity` and
`is_blacklisted_contractor` cells are not float NaN, `riskScore` equals the
exact additive sum of the points of the spec's rule table, with rules 7–8
additionally requiring `contractAmount` to be present and non-zero (the
source guard `if contract_amount and estimate` uses truthiness). -/
theorem c1_riskScore_eq_spec_table_sum (r : Row)
    (h14 : rowGet? r "is_red_flag_entity" ≠ Option.some PyVal.nan)
    (h15 : rowGet? r "is_blacklisted_contractor" ≠ Option.some PyVal.nan) :
    (score_row r).risk_score = ((spec_rule_points_amended r : ℤ) : ℚ) := by
  have key : ((contribs r).map (fun x => x.1)).sum = spec_rule_points_amended r := by
    simp only [contribs, spec_rule_points_amended, List.map_append, List.sum_append]
    rw [sumBidder, sumCostVar, sumPaymentGap, sumEstimate, sumOverpay, sumCompletion,
      sumRedFlag, sumBlacklist, sumMethod, sumDuration,
      get_bool_eq_spec r "is_red_flag_entity" h14,
      get_bool_eq_spec r "is_blacklisted_contractor" h15]
    ring
  rw [score_row_score, key]

/-- C1 witness: the amended equality at a concrete record. -/
theorem c1_spec_table_witness :
    (score_row [("bidder_count", PyVal.num 1)]).risk_score =
      ((spec_rule_points_amended [("bidder_count", PyVal.num 1)] : ℤ) : ℚ) :=
  c1_riskScore_eq_spec_table_sum [("bidder_count", PyVal.num 1)] (by decide) (by decide)

/-- C1 counterexample: on the record with `contract_amount = 0` and
`estimatedCost = 100` the code scores 0 (the truthiness guard suppresses
rules 7–8), while the spec's rule table as stated fires rule 8 for 8
points, so the claimed equality fails. -/
theorem c1_truthiness_counterexample :
    (score_row [("contract_amount", PyVal.num 0), ("estimatedCost", PyVal.num 100)]).risk_score = 0 ∧
    spec_rule_points [("contract_amount", PyVal.num 0), ("estimatedCost", PyVal.num 100)] = 8 ∧
    (score_row [("contract_amount", PyVal.num 0), ("estimatedCost", PyVal.num 100)]).risk_score ≠
      ((spec_rule_points [("contract_amount", PyVal.num 0), ("estimatedCost", PyVal.num 100)] : ℤ) : ℚ) := by
  have hcode : (score_row [("contract_amount", PyVal.num 0),
      ("estimatedCost", PyVal.num 100)]).risk_score = 0 := by decide
  have h1 : get_numeric [("contract_amount", PyVal.num 0), ("estimatedCost", PyVal.num 100)]
      "bidder_count" = Option.none := by decide
  have h2 : get_numeric [("contract_amount", PyVal.num 0), ("estimatedCost", PyVal.num 100)]
      "cost_variance_pct" = Option.none := by decide
  have h3 : get_numeric [("contract_amount", PyVal.num 0), ("estimatedCost", PyVal.num 100)]
      "payment_discrepancy" = Option.none := by decide
  have h4 : get_numeric [("contract_amount", PyVal.num 0), ("estimatedCost", PyVal.num 100)]
      "contract_amount" = Option.some 0 := by decide
  have h5 : get_numeric [("contract_amount", PyVal.num 0), ("estimatedCost", PyVal.num 100)]
      "estimatedCost" = Option.some 100 := by decide
  have h6 : get_numeric [("contract_amount", PyVal.num 0), ("estimatedCost", PyVal.num 100)]
      "actual_payment_made" = Option.none := by decide
  have h7 : get_numeric [("contract_amount", PyVal.num 0), ("estimatedCost", PyVal.num 100)]
      "percentageOfCompletion" = Option.none := by decide
  have h8 : get_numeric [("contract_amount", PyVal.num 0), ("estimatedCost", PyVal.num 100)]
      "contract_duration_days" = Option.none := by decide
  have h9 : spec_get_bool [("contract_amount", PyVal.num 0), ("estimatedCost", PyVal.num 100)]
      "is_red_flag_entity" = false := by decide
  have h10 : spec_get_bool [("contract_amount", PyVal.num 0), ("estimatedCost", PyVal.num 100)]
      "is_blacklisted_contractor" = false := by decide
  have hspec : spec_rule_points [("contract_amount", PyVal.num 0),
      ("estimatedCost", PyVal.num 100)] = 8 := by
    rw [spec_rule_points, h1, h2, h3, h4, h5, h6, h7, h8, h9, h10]
    norm_num
  refine ⟨hcode, hspec, ?_⟩
  rw [hcode, hspec]
  norm_num

/-- C3 (code bug evaluated): on a record whose `is_blacklisted_contractor`
cell is a float NaN — pandas' representation of a missing value in a
present column — `_get_bool` returns `True` (NaN is caught by the
`isinstance(value, (int, float))` branch and `bool(nan)` is `True`), so the
30-point blacklist rule fires on missing data; the claim and spec say the
value should be false. -/
theorem c3_nan_bool_eval :
    get_bool [("is_blacklisted_contractor", PyVal.nan)] "is_blacklisted_contractor" = true ∧
    score_row [("is_blacklisted_contractor", PyVal.nan)] =
      { risk_score := 30, risk_level := "Medium",
        risk_reasons := "Blacklisted contractor involved", risk_triggers := 1 } := by
  exact ⟨by decide, by decide⟩

/-- C4 (amended): when `contractAmount` and `estimatedCost` are both
present and both non-zero, rule 7 fires iff pctDiff ≥ 25 and rule 8 fires
iff pctDiff ≤ -20; when `contractAmount = 0` the whole block is
suppressed, so neither rule fires. -/
theorem c4_pct_diff_rules (a e : ℚ) (ha : a ≠ 0) (he : e ≠ 0) :
    estimateRules (Option.some a) (Option.some e) =
      (if (a - e) / e * 100 ≥ 25 then [((10 : ℤ), "Contract value ≥25% above estimate")]
       else if (a - e) / e * 100 ≤ -20 then [((8 : ℤ), "Contract awarded ≥20% below estimate")]
       else []) ∧
    (((10 : ℤ), "Contract value ≥25% above estimate") ∈
        estimateRules (Option.some a) (Option.some e) ↔ (a - e) / e * 100 ≥ 25) ∧
    (((8 : ℤ), "Contract awarded ≥20% below estimate") ∈
        estimateRules (Option.some a) (Option.some e) ↔ (a - e) / e * 100 ≤ -20) ∧
    (∀ e2 : ℚ, estimateRules (Option.some 0) (Option.some e2) = []) := by
  have hblock : estimateRules (Option.some a) (Option.some e) =
      (if (a - e) / e * 100 ≥ 25 then [((10 : ℤ), "Contract value ≥25% above estimate")]
       else if (a - e) / e * 100 ≤ -20 then [((8 : ℤ), "Contract awarded ≥20% below estimate")]
       else []) := by
    simp [estimateRules, ha, he]
  refine ⟨hblock, ?_, ?_, ?_⟩
  · rw [hblock]
    constructor
    · intro hmem
      split_ifs at hmem with hc1 hc2 <;> simp_all
    · intro hge
      rw [if_pos hge]
      simp
  · rw [hblock]
    constructor
    · intro hmem
      split_ifs at hmem with hc1 hc2 <;> simp_all
    · intro hle
      have hn : ¬ (a - e) / e * 100 ≥ 25 := by linarith
      rw [if_neg hn, if_pos hle]
      simp
  · intro e2
    simp [estimateRules]

/-- C4 witness: the amended characterisation applied at
contractAmount 50, estimatedCost 100 (pctDiff = -50, rule 8 fires). -/
theorem c4_pct_diff_witness :
    ((8 : ℤ), "Contract awarded ≥20% below estimate") ∈
      estimateRules (Option.some 50) (Option.some 100) :=
  ((c4_pct_diff_rules 50 100 (by norm_num) (by norm_num)).2.2.1).mpr (by norm_num)

/-- C4 counterexample: with `contract_amount = 0` and
`estimatedCost = 100` (pctDiff would be -100), the claim says rule 8 fires
for 8 points, but the code's truthiness guard suppresses the whole block:
no contribution, score 0, no triggers. -/
theorem c4_zero_amount_counterexample :
    estimateRules (Option.some 0) (Option.some 100) = [] ∧
    (score_row [("contract_amount", PyVal.num 0), ("estimatedCost", PyVal.num 100)]).risk_score = 0 ∧
    (score_row [("contract_amount", PyVal.num 0), ("estimatedCost", PyVal.num 100)]).risk_triggers = 0 := by
  exact ⟨by decide, by decide, by decide⟩

/-- C9 counterexample: on the example record the code's `riskReasons` is
built from the source's reason strings, not the spec's paraphrases, so the
claimed reasons string does not match. -/
theorem c9_reasons_counterexample :
    (score_row [("bidder_count", PyVal.num 1), ("cost_variance_pct", PyVal.num 30),
      ("is_blacklisted_contractor", PyVal.bool true)]).risk_reasons ≠
      "low bidder count; cost overrun ≥15%; blacklisted contractor" := by
  decide

/-- C9 (amended): the example record fires exactly rules 1 (20), 3 (15)
and 15 (30), giving score 65, level "High" and trigger count 3, with the
reason trail made of the code's reason strings joined by "; ". -/
theorem c9_example_record :
    score_row [("bidder_count", PyVal.num 1), ("cost_variance_pct", PyVal.num 30),
      ("is_blacklisted_contractor", PyVal.bool true)] =
      { risk_score := 65, risk_level := "High",
        risk_reasons :=
          "Low bidder count (≤2); Cost variance ≥15% over estimate; Blacklisted contractor involved",
        risk_triggers := 3 } := by
  decide

/-- C5 (confirmed): scoring degrades malformed data instead of erroring —
the embedding of `_score_row` is a total function by construction, and:
unparseable numeric text extracts as absent, on which no numeric rule block
contributes; non-matching boolean text extracts as false; a zero
`estimatedCost` suppresses rules 7–8 and a zero `contract_amount`
suppresses rules 9–10, silently. -/
theorem c5_malformed_degrades (r : Row) (s t : String)
    (hs : pyParseFloat s = Option.none)
    (ht : (["true", "1", "yes", "y"].contains (pyLower (pyStrip t))) = false) :
    valNumeric (PyVal.str s) = Option.none ∧
    boolOfVal (PyVal.str t) = false ∧
    (get_numeric r "estimatedCost" = Option.some 0 →
      estimateRules (get_numeric r "contract_amount") (get_numeric r "estimatedCost") = []) ∧
    (get_numeric r "contract_amount" = Option.some 0 →
      overpayRules (get_numeric r "actual_payment_made") (get_numeric r "contract_amount") = []) ∧
    bidderRules Option.none = [] ∧
    costVarianceRules Option.none = [] ∧
    paymentGapRules Option.none = [] ∧
    (∀ e : Option ℚ, estimateRules Option.none e = []) ∧
    (∀ ap : Option ℚ, overpayRules ap Option.none = []) ∧
    (∀ st : String, completionRules Option.none st = []) ∧
    (∀ m : String, methodRule m Option.none = []) ∧
    (∀ m : String, durationRule Option.none m = []) := by
  refine ⟨?_, ?_, ?_, ?_, rfl, rfl, rfl, ?_, ?_, ?_, ?_, ?_⟩
  · simp [valNumeric, hs]
  · exact ht
  · intro h
    rw [h]
    exact estimateRules_zero_estimate _
  · intro h
    rw [h]
    exact overpayRules_zero_amount _
  · intro e
    cases e <;> rfl
  · intro ap
    cases ap <;> rfl
  · intro st
    rfl
  · intro m
    rfl
  · intro m
    rfl

/-- C5 witness: the degradation facts at the unparseable numeric "12a",
the non-boolean text "maybe", and a record with `contract_amount = 0`. -/
theorem c5_malformed_degrades_witness :
    valNumeric (PyVal.str "12a") = Option.none ∧
    boolOfVal (PyVal.str "maybe") = false ∧
    overpayRules (get_numeric [("contract_amount", PyVal.num 0)] "actual_payment_made")
      (get_numeric [("contract_amount", PyVal.num 0)] "contract_amount") = [] := by
  have h := c5_malformed_degrades [("contract_amount", PyVal.num 0)] "12a" "maybe"
    (by decide) (by decide)
  exact ⟨h.1, h.2.1, h.2.2.2.1 (by decide)⟩

/-- C7 (confirmed): on an empty dataset the Tabular Scorer returns an
empty dataset with zero rows and the four derived columns declared with
their dtypes appended to the schema. -/
theorem c7_empty_dataset (df : DataFrame) (h : df.rows = []) :
    (score_risk df).rows = [] ∧ (score_risk df).schema = df.schema ++ derivedSchema := by
  constructor <;> simp [score_risk, h]

/-- C7 witness: the empty-dataset behaviour at a concrete one-column frame. -/
theorem c7_empty_dataset_witness :
    (score_risk { schema := [("vendor", Dtype.str)], rows := [] }).rows = [] ∧
    (score_risk { schema := [("vendor", Dtype.str)], rows := [] }).schema =
      [("vendor", Dtype.str)] ++ derivedSchema :=
  c7_empty_dataset { schema := [("vendor", Dtype.str)], rows := [] } rfl

/-- C8 (confirmed): `score_risk` never mutates the input — every output
row is its input row with the derived cells appended, in the input's order
with no row dropped or duplicated; the schema is the input schema plus the
derived columns; and looking up any column present in the input row yields
its unchanged value. -/
theorem c8_frame_preservation (df : DataFrame) :
    (score_risk df).rows = df.rows.map (fun r => r ++ assessCells (score_row r)) ∧
    (score_risk df).schema = df.schema ++ derivedSchema ∧
    ∀ (r : Row) (c : String), (rowGet? r c).isSome →
      rowGet? (r ++ assessCells (score_row r)) c = rowGet? r c := by
  refine ⟨?_, ?_, ?_⟩
  · unfold score_risk
    split_ifs with h
    · have hnil : df.rows = [] := List.isEmpty_iff.mp h
      simp [hnil]
    · rfl
  · unfold score_risk
    split_ifs <;> rfl
  · intro r c h
    exact rowGet?_append_left r (assessCells (score_row r)) c h

/-- C8 witness: the lookup-preservation part at a concrete row and frame. -/
theorem c8_frame_preservation_witness :
    rowGet? ([("vendor", PyVal.str "ACME")] ++
        assessCells (score_row [("vendor", PyVal.str "ACME")])) "vendor" =
      rowGet? [("vendor", PyVal.str "ACME")] "vendor" :=
  (c8_frame_preservation { schema := [], rows := [] }).2.2
    [("vendor", PyVal.str "ACME")] "vendor" (by decide)
